import Mathlib

/-!
Verification development for the BeamerPresenter cache scheduling core.

The definitions below are a shallow embedding of the cache management code of
`src/screens/controlscreen.cpp` (ControlScreen::updateCache, updateCacheStep,
freeCachePage, cachePage, setCacheNumber, setCacheSize, renderPage),
`src/pagelabel.cpp` (PageLabel::updateCache) and `presentationscreen.cpp`
(PresentationScreen::renderPage).  C++ `int` and `qint64` values are modelled
as `Int` (the claims under study do not hinge on machine overflow; page
numbers and byte counts stay far from the width bounds in all scenarios the
claims quantify over).

The per-widget image store class `CacheMap` is not part of the provided
sources (only its callers are), so its operations are modelled from the
spec's ImageStore contract (spec section 4.1): a store maps page indices to
compressed image blobs; `clearPage` removes the entry for one page and
returns the number of bytes freed (0 if absent); `length` is the number of
entries; `getSizeBytes` the aggregate byte size; `clearCache` removes all
entries; an insert is a no-op returning 0 when the blob is empty or the
store already holds an entry for the index.
-/

/-- Modelled from the spec: an ImageStore (the source's `CacheMap`, whose code
is not among the provided files).  An entry `(i, b)` records a cached blob of
`b` bytes for page index `i`. -/
structure CacheMap where
  entries : List (Int × Int)
deriving DecidableEq, Repr

/-- Spec 4.1: `count()` — number of cached pages (the source's `length()`,
returned as a C++ `int`). -/
def CacheMap.length (m : CacheMap) : Int :=
  (m.entries.length : Int)

/-- Spec 4.1: `sizeBytes()` — aggregate byte size (the source's
`getSizeBytes()`). -/
def CacheMap.getSizeBytes (m : CacheMap) : Int :=
  (m.entries.map Prod.snd).sum

/-- Presence test for a page index (the source's `contains`). -/
def CacheMap.contains (m : CacheMap) (i : Int) : Bool :=
  m.entries.any (fun e => e.1 == i)

/-- Spec 4.1: `evict(index) -> bytesFreed` (the source's `clearPage`):
removes the entry for page `i` and returns the number of bytes freed,
0 if the page is absent. -/
def CacheMap.clearPage (m : CacheMap) (i : Int) : Int × CacheMap :=
  (((m.entries.filter (fun e => e.1 == i)).map Prod.snd).sum,
   ⟨m.entries.filter (fun e => e.1 != i)⟩)

/-- Spec 4.1: `evictAll()` (the source's `clearCache`). -/
def CacheMap.clearCache (_ : CacheMap) : CacheMap :=
  ⟨[]⟩

/-- Modelled from the spec (4.1): `insert(index, blob) -> bytesAdded` — a
no-op returning 0 when the blob is empty or the store already holds an entry
for `index`. -/
def CacheMap.insertBlob (m : CacheMap) (i b : Int) : Int × CacheMap :=
  if b ≤ 0 then (0, m)
  else if m.contains i then (0, m)
  else (b, ⟨(i, b) :: m.entries⟩)

/-- All entries of a store at one page index. -/
def CacheMap.entriesAt (m : CacheMap) (i : Int) : List (Int × Int) :=
  m.entries.filter (fun e => e.1 == i)

/-- Byte size of an optional store (`nullptr` contributes nothing). -/
def optSizeBytes : Option CacheMap → Int
  | none => 0
  | some m => m.getSizeBytes

/-- Page count of an optional store (`nullptr` contributes nothing). -/
def optLength : Option CacheMap → Int
  | none => 0
  | some m => m.length

/-- Entries at one page index of an optional store. -/
def optEntriesAt : Option CacheMap → Int → List (Int × Int)
  | none, _ => []
  | some m, i => m.entriesAt i

/-- An optional store is "full" when it is absent (`nullptr`) or caches all
`n` pages — the shape of the checks `drawSlideCache == nullptr ||
drawSlideCache->length() == numberOfPages` in the source. -/
def optFull : Option CacheMap → Int → Prop
  | none, _ => True
  | some m, n => m.length = n

instance (o : Option CacheMap) (n : Int) : Decidable (optFull o n) :=
  match o with
  | none => isTrue True.intro
  | some m => inferInstanceAs (Decidable (m.length = n))

/-- Cache-management state of the source's `ControlScreen`: the window and
budget bookkeeping fields together with the five attached stores
(presentation slide, notes widget, preview, optional second preview,
optional draw slide), the cache timer and the in-flight thread counter. -/
structure ControlScreen where
  numberOfPages : Int
  currentPageNumber : Int
  first_cached : Int
  last_cached : Int
  first_delete : Int
  last_delete : Int
  cacheSize : Int
  maxCacheSize : Int
  maxCacheNumber : Int
  presentationCache : CacheMap
  notesCache : CacheMap
  previewCache : CacheMap
  previewCacheX : Option CacheMap
  drawSlideCache : Option CacheMap
  timerRunning : Bool
  cacheThreadsRunning : Int
deriving DecidableEq, Repr

/-- Total byte size over all five attached stores. -/
def ControlScreen.totalBytes (s : ControlScreen) : Int :=
  s.presentationCache.getSizeBytes + s.notesCache.getSizeBytes
    + s.previewCache.getSizeBytes + optSizeBytes s.previewCacheX
    + optSizeBytes s.drawSlideCache

/-- Byte-accounting accuracy: the tracked counter `cacheSize` equals the
actual total byte size of the stores (established by
`ControlScreen::updateCache` when `maxCacheSize > 0`). -/
def ControlScreen.accurate (s : ControlScreen) : Prop :=
  s.cacheSize = s.totalBytes

instance (s : ControlScreen) : Decidable s.accurate := by
  unfold ControlScreen.accurate; infer_instance

/-- The source's `cacheTimer->stop()`. -/
def ControlScreen.stopTimer (s : ControlScreen) : ControlScreen :=
  { s with timerRunning := false }

/-- The budget test repeated inside `ControlScreen::freeCachePage`
(controlscreen.cpp lines 841/845/850):
`cacheSize <= maxCacheSize && (maxCacheNumber >= numberOfPages ||
presentationCache.length() <= maxCacheNumber)`. -/
def ControlScreen.budgetSat (s : ControlScreen) : Prop :=
  s.cacheSize ≤ s.maxCacheSize ∧
    (s.maxCacheNumber ≥ s.numberOfPages ∨
      s.presentationCache.length ≤ s.maxCacheNumber)

instance (s : ControlScreen) : Decidable s.budgetSat := by
  unfold ControlScreen.budgetSat; infer_instance

/-- The eviction loop condition (controlscreen.cpp line 776):
`cacheSize > maxCacheSize || (maxCacheNumber < numberOfPages &&
presentationCache.length() > maxCacheNumber)`. -/
def ControlScreen.evictCond (s : ControlScreen) : Prop :=
  s.cacheSize > s.maxCacheSize ∨
    (s.maxCacheNumber < s.numberOfPages ∧
      s.presentationCache.length > s.maxCacheNumber)

instance (s : ControlScreen) : Decidable s.evictCond := by
  unfold ControlScreen.evictCond; infer_instance

/-- All five stores hold all pages (controlscreen.cpp lines 751-757 and
665-671). -/
def ControlScreen.allCached (s : ControlScreen) : Prop :=
  s.presentationCache.length = s.numberOfPages ∧
    s.notesCache.length = s.numberOfPages ∧
    s.previewCache.length = s.numberOfPages ∧
    optFull s.drawSlideCache s.numberOfPages ∧
    optFull s.previewCacheX s.numberOfPages

instance (s : ControlScreen) : Decidable s.allCached := by
  unfold ControlScreen.allCached; infer_instance

/-- The defensive window-consistency check of `updateCacheStep`
(controlscreen.cpp lines 763-768). -/
def ControlScreen.windowInconsistent (s : ControlScreen) : Prop :=
  s.last_cached > s.last_delete ∨ s.first_cached < s.first_delete ∨
    s.first_cached > s.currentPageNumber ∨
    s.last_cached < s.currentPageNumber - 1

instance (s : ControlScreen) : Decidable s.windowInconsistent := by
  unfold ControlScreen.windowInconsistent; infer_instance

/-- One store-eviction of `ControlScreen::freeCachePage`: evict `page` from
the draw-slide store if it is attached (controlscreen.cpp lines 839-840). -/
def ControlScreen.evictFromDraw (s : ControlScreen) (page : Int) : ControlScreen :=
  match s.drawSlideCache with
  | none => s
  | some m =>
    let r := m.clearPage page
    { s with drawSlideCache := some r.2, cacheSize := s.cacheSize - r.1 }

/-- Evict `page` from the notes store (controlscreen.cpp line 844). -/
def ControlScreen.evictFromNotes (s : ControlScreen) (page : Int) : ControlScreen :=
  let r := s.notesCache.clearPage page
  { s with notesCache := r.2, cacheSize := s.cacheSize - r.1 }

/-- Evict `page` from the second preview store if it is attached
(controlscreen.cpp lines 847-848). -/
def ControlScreen.evictFromPreviewX (s : ControlScreen) (page : Int) : ControlScreen :=
  match s.previewCacheX with
  | none => s
  | some m =>
    let r := m.clearPage page
    { s with previewCacheX := some r.2, cacheSize := s.cacheSize - r.1 }

/-- Evict `page` from the preview store (controlscreen.cpp line 849). -/
def ControlScreen.evictFromPreview (s : ControlScreen) (page : Int) : ControlScreen :=
  let r := s.previewCache.clearPage page
  { s with previewCache := r.2, cacheSize := s.cacheSize - r.1 }

/-- Evict `page` from the presentation store (controlscreen.cpp line 852). -/
def ControlScreen.evictFromPres (s : ControlScreen) (page : Int) : ControlScreen :=
  let r := s.presentationCache.clearPage page
  { s with presentationCache := r.2, cacheSize := s.cacheSize - r.1 }

/-- `ControlScreen::freeCachePage` (controlscreen.cpp lines 837-857): evict
`page` from the stores in the fixed order draw slide, notes, second preview,
preview, presentation, decrementing the tracked `cacheSize` by the bytes
each store reports freed; return `true` (stop evicting further stores) as
soon as the budget test holds.  The budget is re-checked after the draw
slide store only when that store is attached, and there is no check between
the second preview and the preview store, exactly as in the source. -/
def ControlScreen.freeCachePage (s : ControlScreen) (page : Int) : Bool × ControlScreen :=
  let s1 := s.evictFromDraw page
  if s.drawSlideCache.isSome ∧ s1.budgetSat then (true, s1)
  else
    let s2 := s1.evictFromNotes page
    if s2.budgetSat then (true, s2)
    else
      let s3 := s2.evictFromPreviewX page
      let s4 := s3.evictFromPreview page
      if s4.budgetSat then (true, s4)
      else (false, s4.evictFromPres page)

/-- Outcome of one iteration of the eviction while-loop of
`ControlScreen::updateCacheStep`. -/
inductive EvictOutcome where
  /-- `freeCachePage` returned `true`: `break` out of the loop. -/
  | broke (s : ControlScreen)
  /-- the delete boundary was advanced; the loop continues. -/
  | advanced (s : ControlScreen)
  /-- the consistency re-check failed: stop the timer and return from the
  step (controlscreen.cpp lines 790-796). -/
  | abortStep (s : ControlScreen)
deriving DecidableEq, Repr

/-- The state carried by an `EvictOutcome`. -/
def EvictOutcome.state : EvictOutcome → ControlScreen
  | .broke s => s
  | .advanced s => s
  | .abortStep s => s

/-- The victim page of one eviction iteration as the spec describes it:
the tail (`last_delete`) exactly when `last_delete > 4*currentPageNumber -
3*first_delete`, the head (`first_delete`) otherwise. -/
def ControlScreen.evictVictim (s : ControlScreen) : Int :=
  if s.last_delete > 4 * s.currentPageNumber - 3 * s.first_delete then
    s.last_delete
  else
    s.first_delete

/-- The consistency re-check at the end of each loop iteration
(controlscreen.cpp lines 790-796). -/
def ControlScreen.postIterCheck (s : ControlScreen) : EvictOutcome :=
  if s.last_cached > s.last_delete ∨ s.first_cached < s.first_delete then
    .abortStep s.stopTimer
  else
    .advanced s

/-- One iteration of the eviction while-loop (controlscreen.cpp lines
776-796), paired with the page index handed to `freeCachePage`. -/
def ControlScreen.evictIter (s : ControlScreen) : Int × EvictOutcome :=
  if s.last_delete > 4 * s.currentPageNumber - 3 * s.first_delete then
    let r := s.freeCachePage s.last_delete
    if r.1 then (s.last_delete, .broke r.2)
    else
      let s1 := { r.2 with last_delete := r.2.last_delete - 1 }
      let s2 := { s1 with
        last_cached :=
          if s1.last_delete > s1.last_cached then s1.last_cached
          else s1.last_delete }
      (s.last_delete, s2.postIterCheck)
  else
    let r := s.freeCachePage s.first_delete
    if r.1 then (s.first_delete, .broke r.2)
    else
      let s1 := { r.2 with first_delete := r.2.first_delete + 1 }
      let s2 := { s1 with
        first_cached :=
          if s1.first_cached > s1.first_delete then s1.first_cached
          else s1.first_delete }
      (s.first_delete, s2.postIterCheck)

/-- Result of running the eviction while-loop to completion. -/
inductive EvictResult where
  /-- the loop exited (its condition became false, or `freeCachePage`
  satisfied the budget and broke out): the step continues. -/
  | done (s : ControlScreen)
  /-- the step returned from inside the loop. -/
  | abortStep (s : ControlScreen)
  /-- the supplied fuel ran out before the loop finished. -/
  | fuelOut
deriving DecidableEq, Repr

/-- The eviction while-loop of `ControlScreen::updateCacheStep`
(controlscreen.cpp lines 776-797), with explicit fuel in place of the C++
unbounded loop. -/
def ControlScreen.evictLoop : Nat → ControlScreen → EvictResult
  | 0, _ => .fuelOut
  | n + 1, s =>
    if s.evictCond then
      match (s.evictIter).2 with
      | .broke t => .done t
      | .abortStep t => .abortStep t
      | .advanced t => ControlScreen.evictLoop n t
    else
      .done s

/-- What a scheduler step did. -/
inductive StepAction where
  /-- the step stopped the cache timer and scheduled nothing. -/
  | stopped
  /-- the step handed `page` to `ControlScreen::cachePage`. -/
  | dispatched (page : Int)
  /-- the eviction loop's fuel ran out (cannot happen in the C++ source,
  which loops unboundedly). -/
  | outOfFuel
deriving DecidableEq, Repr

/-- `ControlScreen::cachePage` (controlscreen.cpp lines 859-878): stop the
timer, dispatch one render job per attached store that does not already hold
`page` (CacheMap::updateCache is modelled from the spec, section 4.3: a
worker is dispatched exactly for the stores missing the page), count the
started threads, and restart the timer when no thread was started. -/
def ControlScreen.cachePage (s : ControlScreen) (page : Int) : ControlScreen :=
  let c : Int :=
    (if s.presentationCache.contains page then 0 else 1)
      + (if s.notesCache.contains page then 0 else 1)
      + (if s.previewCache.contains page then 0 else 1)
      + (match s.drawSlideCache with
         | none => 0
         | some m => if m.contains page then 0 else 1)
      + (match s.previewCacheX with
         | none => 0
         | some m => if m.contains page then 0 else 1)
  { s with timerRunning := c = 0, cacheThreadsRunning := c }

/-- The scheduling phase of `ControlScreen::updateCacheStep`, entered after
the eviction loop exits (controlscreen.cpp lines 798-834). -/
def ControlScreen.schedPhase (s : ControlScreen) : StepAction × ControlScreen :=
  if s.last_cached + 1 = s.numberOfPages then
    if s.first_cached > s.first_delete ∧
        2 * s.maxCacheSize > 3 * s.cacheSize ∧
        (s.maxCacheNumber = s.numberOfPages ∨
          2 * s.maxCacheNumber > 3 * s.presentationCache.length) then
      let s1 := { s with first_cached := s.first_cached - 1 }
      (.dispatched s1.first_cached, s1.cachePage s1.first_cached)
    else
      (.stopped, s.stopTimer)
  else
    if 2 * s.maxCacheSize < 3 * s.cacheSize ∧
        (s.last_cached = s.numberOfPages ∨
          3 * (s.last_cached - s.currentPageNumber) * s.cacheSize >
            2 * s.presentationCache.length * s.maxCacheSize) ∧
        (s.maxCacheSize - s.cacheSize) * s.presentationCache.length <
          2 * s.cacheSize then
      (.stopped, s.stopTimer)
    else
      let s1 := { s with last_cached := s.last_cached + 1 }
      (.dispatched s1.last_cached, s1.cachePage s1.last_cached)

/-- `ControlScreen::updateCacheStep` (controlscreen.cpp lines 718-835). -/
def ControlScreen.updateCacheStep (fuel : Nat) (s : ControlScreen) :
    StepAction × ControlScreen :=
  if s.allCached then (.stopped, s.stopTimer)
  else if s.windowInconsistent then (.stopped, s.stopTimer)
  else
    match s.evictLoop fuel with
    | .abortStep t => (.stopped, t)
    | .fuelOut => (.outOfFuel, s)
    | .done t => t.schedPhase

/-- Clear every attached store (controlscreen.cpp lines 651-657). -/
def ControlScreen.clearAllCaches (s : ControlScreen) : ControlScreen :=
  { s with
    presentationCache := s.presentationCache.clearCache,
    notesCache := s.notesCache.clearCache,
    previewCache := s.previewCache.clearCache,
    previewCacheX := s.previewCacheX.map CacheMap.clearCache,
    drawSlideCache := s.drawSlideCache.map CacheMap.clearCache }

/-- `ControlScreen::updateCache` (controlscreen.cpp lines 642-716): the
(re)initialisation entry point of the cache scheduler.  With a budget of
exactly 0 it clears all stores and returns at once; when all stores are
full it returns; otherwise it initialises `cacheSize` (to the actual total
for a positive byte budget, to the -8GiB sentinel otherwise), resets the
window when `currentPageNumber` lies outside `[first_cached, last_cached]`
or pushes the delete boundaries outward otherwise, and restarts the timer
if any page is missing. -/
def ControlScreen.updateCache (s : ControlScreen) : ControlScreen :=
  if s.maxCacheSize = 0 ∨ s.maxCacheNumber = 0 then
    s.clearAllCaches
  else
    let s0 : ControlScreen := s.stopTimer
    let cacheNumber : Int := s0.presentationCache.length
    if s0.allCached then s0
    else
      let s1 : ControlScreen :=
        if s0.maxCacheSize > 0 then { s0 with cacheSize := s0.totalBytes }
        else { s0 with cacheSize := -8589934591 }
      let s2 : ControlScreen :=
        if s1.first_cached > s1.currentPageNumber ∨
            s1.last_cached < s1.currentPageNumber then
          { s1 with
            first_cached := s1.currentPageNumber,
            last_cached := s1.currentPageNumber - 1,
            first_delete := 0,
            last_delete := s1.numberOfPages - 1 }
        else
          let ld :=
            if s1.last_delete > s1.currentPageNumber + cacheNumber then
              s1.last_delete
            else s1.currentPageNumber + cacheNumber
          let ld' := if ld ≥ s1.numberOfPages then s1.numberOfPages - 1 else ld
          let fd :=
            if s1.first_delete > s1.currentPageNumber - cacheNumber / 2 then
              s1.currentPageNumber - cacheNumber / 2
            else s1.first_delete
          let fd' := if fd < 0 then 0 else fd
          { s1 with last_delete := ld', first_delete := fd' }
      if s2.last_cached < s2.numberOfPages - 1 ∨ s2.first_cached > 0 then
        { s2 with timerRunning := true }
      else s2

/-- `ControlScreen::interruptCacheProcesses` (controlscreen.cpp lines
2163-2214): stops the cache timer and interrupts the render threads.  It
does not touch the stores. -/
def ControlScreen.interruptCacheProcesses (s : ControlScreen) : ControlScreen :=
  { s with timerRunning := false }

/-- `ControlScreen::setCacheNumber` (controlscreen.cpp lines 880-890). -/
def ControlScreen.setCacheNumber (s : ControlScreen) (number : Int) : ControlScreen :=
  if number < 0 then { s with maxCacheNumber := s.numberOfPages }
  else if number = 0 then
    { s.interruptCacheProcesses with maxCacheNumber := 0 }
  else { s with maxCacheNumber := number }

/-- `ControlScreen::setCacheSize` (controlscreen.cpp lines 898-903).  Note
that the source tests the current `cacheSize` counter, not the new budget
`size`, before interrupting. -/
def ControlScreen.setCacheSize (s : ControlScreen) (size : Int) : ControlScreen :=
  if s.cacheSize = 0 then
    { s.interruptCacheProcesses with maxCacheSize := size }
  else { s with maxCacheSize := size }

/-- Modelled from the spec (sections 4.1 and 4.3, completion handling): a
render dispatched by `cachePage` completes; each store that does not yet
hold `page` receives its blob (`bPres`, ... bytes for the respective
stores) and the orchestrator's byte counter grows by exactly the bytes the
inserts report added (the source's `cacheSizeChanged` /
`ControlScreen::updateCacheSize` connection); the in-flight counter returns
to zero and the timer is re-armed (`ControlScreen::cacheThreadFinished`). -/
def ControlScreen.completeRender (s : ControlScreen)
    (page bPres bNotes bPrev bPrevX bDraw : Int) : ControlScreen :=
  let r1 := s.presentationCache.insertBlob page bPres
  let r2 := s.notesCache.insertBlob page bNotes
  let r3 := s.previewCache.insertBlob page bPrev
  let r4 : Int × Option CacheMap :=
    match s.previewCacheX with
    | none => (0, none)
    | some m => let r := m.insertBlob page bPrevX; (r.1, some r.2)
  let r5 : Int × Option CacheMap :=
    match s.drawSlideCache with
    | none => (0, none)
    | some m => let r := m.insertBlob page bDraw; (r.1, some r.2)
  { s with
    presentationCache := r1.2,
    notesCache := r2.2,
    previewCache := r3.2,
    previewCacheX := r4.2,
    drawSlideCache := r5.2,
    cacheSize := s.cacheSize + r1.1 + r2.1 + r3.1 + r4.1 + r5.1,
    cacheThreadsRunning := 0,
    timerRunning := true }

/-- A transition of the cache scheduler: one `updateCacheStep` invocation
(with fuel for its eviction loop) or the completion of a dispatched render
round. -/
inductive CacheTrans where
  | stepT (fuel : Nat)
  | completeT (page bPres bNotes bPrev bPrevX bDraw : Int)

/-- Apply one transition. -/
def applyTrans (s : ControlScreen) : CacheTrans → ControlScreen
  | .stepT fuel => (s.updateCacheStep fuel).2
  | .completeT page a b c d e => s.completeRender page a b c d e

/-- Apply a sequence of transitions, oldest first. -/
def runTrans (s : ControlScreen) : List CacheTrans → ControlScreen
  | [] => s
  | t :: ts => runTrans (applyTrans s t) ts

/-- `PageLabel::updateCache(Poppler::Page const*)` (pagelabel.cpp lines
786-816).  The store is read twice: `c1` is its content at entry (first
presence check, before rendering) and `c2` its content at the repeated
presence check right before the insert — rendering happens between the two
reads and the store may be mutated concurrently in that window, so the two
reads may differ.  `bytes` is the size of the compressed rendering.  The
function returns the stored size (0 when nothing was stored) and the store
content after the call. -/
def PageLabel.updateCache (c1 c2 : CacheMap) (index bytes : Int) : Int × CacheMap :=
  if c1.contains index then (0, c2)
  else if c2.contains index then (0, c2)
  else (bytes, ⟨(index, bytes) :: c2.entries⟩)

/-- The update of `currentPageNumber` at the top of
`ControlScreen::renderPage` (controlscreen.cpp lines 573-578). -/
def ControlScreen.renderPageCurrent (pageNumber numberOfPages : Int) : Int :=
  if pageNumber < 0 ∨ pageNumber ≥ numberOfPages then numberOfPages - 1
  else pageNumber

/-- The page index `PresentationScreen::renderPage` hands to its label
(presentationscreen.cpp: `label->renderPage(presentation->getPage(...))`). -/
def PresentationScreen.renderPageTarget (pageNumber numPages : Int) : Int :=
  if pageNumber < 0 ∨ pageNumber ≥ numPages then numPages - 1
  else pageNumber

theorem sum_filter_eq_split (l : List (Int × Int)) (i : Int) :
    ((l.filter fun e => !(e.1 == i)).map Prod.snd).sum
      = (l.map Prod.snd).sum - ((l.filter fun e => e.1 == i).map Prod.snd).sum := by
  induction l with
  | nil => simp
  | cons e t ih =>
    by_cases h : e.1 = i
    · have h' : (e.1 == i) = true := by simpa using h
      simp only [List.filter_cons, h', Bool.not_true, Bool.false_eq_true,
        if_false, if_true, List.map_cons, List.sum_cons]
      omega
    · have h' : (e.1 == i) = false := by simpa using h
      simp only [List.filter_cons, h', Bool.not_false, Bool.false_eq_true,
        if_false, if_true, List.map_cons, List.sum_cons]
      omega

theorem CacheMap.clearPage_getSizeBytes (m : CacheMap) (i : Int) :
    ((m.clearPage i).2).getSizeBytes = m.getSizeBytes - (m.clearPage i).1 := by
  unfold CacheMap.clearPage CacheMap.getSizeBytes
  simp only [bne]
  exact sum_filter_eq_split m.entries i

theorem CacheMap.insertBlob_getSizeBytes (m : CacheMap) (i b : Int) :
    ((m.insertBlob i b).2).getSizeBytes = m.getSizeBytes + (m.insertBlob i b).1 := by
  unfold CacheMap.insertBlob
  split
  · simp
  · split
    · simp
    · simp only [CacheMap.getSizeBytes, List.map_cons, List.sum_cons]
      omega

theorem evictFromDraw_accurate (s : ControlScreen) (page : Int)
    (h : s.accurate) : (s.evictFromDraw page).accurate := by
  unfold ControlScreen.evictFromDraw
  match hd : s.drawSlideCache with
  | none => exact h
  | some m =>
    unfold ControlScreen.accurate ControlScreen.totalBytes at *
    simp only [optSizeBytes, hd, CacheMap.clearPage_getSizeBytes] at *
    omega

theorem evictFromNotes_accurate (s : ControlScreen) (page : Int)
    (h : s.accurate) : (s.evictFromNotes page).accurate := by
  unfold ControlScreen.evictFromNotes ControlScreen.accurate
    ControlScreen.totalBytes at *
  simp only [CacheMap.clearPage_getSizeBytes]
  omega

theorem evictFromPreviewX_accurate (s : ControlScreen) (page : Int)
    (h : s.accurate) : (s.evictFromPreviewX page).accurate := by
  unfold ControlScreen.evictFromPreviewX
  match hd : s.previewCacheX with
  | none => exact h
  | some m =>
    unfold ControlScreen.accurate ControlScreen.totalBytes at *
    simp only [optSizeBytes, hd, CacheMap.clearPage_getSizeBytes] at *
    omega

theorem evictFromPreview_accurate (s : ControlScreen) (page : Int)
    (h : s.accurate) : (s.evictFromPreview page).accurate := by
  unfold ControlScreen.evictFromPreview ControlScreen.accurate
    ControlScreen.totalBytes at *
  simp only [CacheMap.clearPage_getSizeBytes]
  omega

theorem evictFromPres_accurate (s : ControlScreen) (page : Int)
    (h : s.accurate) : (s.evictFromPres page).accurate := by
  unfold ControlScreen.evictFromPres ControlScreen.accurate
    ControlScreen.totalBytes at *
  simp only [CacheMap.clearPage_getSizeBytes]
  omega

theorem freeCachePage_accurate (s : ControlScreen) (page : Int)
    (h : s.accurate) : ((s.freeCachePage page).2).accurate := by
  unfold ControlScreen.freeCachePage
  have h1 := evictFromDraw_accurate s page h
  have h2 := evictFromNotes_accurate _ page h1
  have h3 := evictFromPreviewX_accurate _ page h2
  have h4 := evictFromPreview_accurate _ page h3
  have h5 := evictFromPres_accurate _ page h4
  dsimp only
  split
  · exact h1
  · split
    · exact h2
    · split
      · exact h4
      · exact h5

theorem freeCachePage_budgetSat_of_true (s : ControlScreen) (page : Int) :
    ∀ t : ControlScreen, s.freeCachePage page = (true, t) → t.budgetSat := by
  unfold ControlScreen.freeCachePage
  dsimp only
  split
  · next hc => intro t heq; cases heq; exact hc.2
  · split
    · next hc => intro t heq; cases heq; exact hc
    · split
      · next hc => intro t heq; cases heq; exact hc
      · intro t heq; simp at heq

theorem evictIter_state_accurate (s : ControlScreen) (h : s.accurate) :
    ∀ (p : Int) (o : EvictOutcome), s.evictIter = (p, o) → o.state.accurate := by
  unfold ControlScreen.evictIter
  split
  · dsimp only
    split
    · intro p o heq; cases heq; exact freeCachePage_accurate s s.last_delete h
    · intro p o heq
      cases heq
      unfold ControlScreen.postIterCheck
      split <;> split <;>
        exact freeCachePage_accurate s s.last_delete h
  · dsimp only
    split
    · intro p o heq; cases heq; exact freeCachePage_accurate s s.first_delete h
    · intro p o heq
      cases heq
      unfold ControlScreen.postIterCheck
      split <;> split <;>
        exact freeCachePage_accurate s s.first_delete h

theorem budgetSat_of_not_evictCond (s : ControlScreen) (h : ¬ s.evictCond) :
    s.budgetSat := by
  unfold ControlScreen.evictCond at h
  unfold ControlScreen.budgetSat
  push_neg at h
  exact ⟨h.1, by omega⟩

theorem postIterCheck_ne_broke (s t : ControlScreen) :
    s.postIterCheck ≠ .broke t := by
  unfold ControlScreen.postIterCheck
  split
  · intro h; cases h
  · intro h; cases h

theorem evictIter_broke_budgetSat (s : ControlScreen) :
    ∀ (p : Int) (t : ControlScreen), s.evictIter = (p, .broke t) →
      t.budgetSat := by
  unfold ControlScreen.evictIter
  split
  · dsimp only
    split
    · next hr =>
      intro p t heq
      cases heq
      exact freeCachePage_budgetSat_of_true s s.last_delete _ (by rw [← hr])
    · intro p t heq
      exact absurd (congrArg Prod.snd heq) (postIterCheck_ne_broke _ t)
  · dsimp only
    split
    · next hr =>
      intro p t heq
      cases heq
      exact freeCachePage_budgetSat_of_true s s.first_delete _ (by rw [← hr])
    · intro p t heq
      exact absurd (congrArg Prod.snd heq) (postIterCheck_ne_broke _ t)

theorem evictLoop_done_budgetSat (fuel : Nat) :
    ∀ s t : ControlScreen, ControlScreen.evictLoop fuel s = .done t →
      t.budgetSat := by
  induction fuel with
  | zero => intro s t h; simp [ControlScreen.evictLoop] at h
  | succ n ih =>
    intro s t h
    unfold ControlScreen.evictLoop at h
    split at h
    · split at h
      · next u hu =>
        cases h
        exact evictIter_broke_budgetSat s _ _ (by rw [← hu])
      · exact absurd h (by simp)
      · next u hu => exact ih u t h
    · cases h
      next hc => exact budgetSat_of_not_evictCond s hc

theorem evictLoop_done_accurate (fuel : Nat) :
    ∀ s t : ControlScreen, s.accurate →
      ControlScreen.evictLoop fuel s = .done t → t.accurate := by
  induction fuel with
  | zero => intro s t _ h; simp [ControlScreen.evictLoop] at h
  | succ n ih =>
    intro s t hs h
    unfold ControlScreen.evictLoop at h
    split at h
    · split at h
      · next hu =>
        cases h
        have := evictIter_state_accurate s hs (s.evictIter).1 (.broke t)
          (by rw [← hu])
        exact this
      · exact absurd h (by simp)
      · next u hu =>
        have hu' : u.accurate :=
          evictIter_state_accurate s hs (s.evictIter).1 (.advanced u)
            (by rw [← hu])
        exact ih u t hu' h
    · cases h
      exact hs

theorem evictLoop_abort_accurate (fuel : Nat) :
    ∀ s t : ControlScreen, s.accurate →
      ControlScreen.evictLoop fuel s = .abortStep t → t.accurate := by
  induction fuel with
  | zero => intro s t _ h; simp [ControlScreen.evictLoop] at h
  | succ n ih =>
    intro s t hs h
    unfold ControlScreen.evictLoop at h
    split at h
    · split at h
      · exact absurd h (by simp)
      · next hu =>
        cases h
        have := evictIter_state_accurate s hs (s.evictIter).1 (.abortStep t)
          (by rw [← hu])
        exact this
      · next u hu =>
        have hu' : u.accurate :=
          evictIter_state_accurate s hs (s.evictIter).1 (.advanced u)
            (by rw [← hu])
        exact ih u t hu' h
    · cases h

theorem cachePage_accurate (s : ControlScreen) (page : Int)
    (h : s.accurate) : (s.cachePage page).accurate := by
  unfold ControlScreen.cachePage
  exact h

theorem schedPhase_accurate (s : ControlScreen) (h : s.accurate) :
    ((s.schedPhase).2).accurate := by
  unfold ControlScreen.schedPhase
  split
  · split
    · exact cachePage_accurate _ _ h
    · exact h
  · split
    · exact h
    · exact cachePage_accurate _ _ h

theorem updateCacheStep_accurate (fuel : Nat) (s : ControlScreen)
    (h : s.accurate) : ((s.updateCacheStep fuel).2).accurate := by
  unfold ControlScreen.updateCacheStep
  split
  · exact h
  · split
    · exact h
    · split
      · next t ht => exact evictLoop_abort_accurate fuel s t h ht
      · exact h
      · next t ht => exact schedPhase_accurate t (evictLoop_done_accurate fuel s t h ht)

theorem completeRender_accurate (s : ControlScreen)
    (page bPres bNotes bPrev bPrevX bDraw : Int) (h : s.accurate) :
    (s.completeRender page bPres bNotes bPrev bPrevX bDraw).accurate := by
  unfold ControlScreen.completeRender ControlScreen.accurate
    ControlScreen.totalBytes at *
  match hx : s.previewCacheX, hd : s.drawSlideCache with
  | none, none =>
    simp only [hx, hd, optSizeBytes, CacheMap.insertBlob_getSizeBytes] at *
    omega
  | none, some md =>
    simp only [hx, hd, optSizeBytes, CacheMap.insertBlob_getSizeBytes] at *
    omega
  | some mx, none =>
    simp only [hx, hd, optSizeBytes, CacheMap.insertBlob_getSizeBytes] at *
    omega
  | some mx, some md =>
    simp only [hx, hd, optSizeBytes, CacheMap.insertBlob_getSizeBytes] at *
    omega

theorem runTrans_accurate (ts : List CacheTrans) :
    ∀ s : ControlScreen, s.accurate → (runTrans s ts).accurate := by
  induction ts with
  | nil => intro s h; exact h
  | cons t ts ih =>
    intro s h
    unfold runTrans
    apply ih
    match t with
    | .stepT fuel => exact updateCacheStep_accurate fuel s h
    | .completeT page a b c d e => exact completeRender_accurate s page a b c d e h

/-- C1: after the eviction phase of a scheduler step completes (the
while-loop of `updateCacheStep` exits without aborting the step, i.e. the
loop condition became false or `freeCachePage` satisfied the budget), the
total cached size over all stores is at most `maxCacheSize`, and the page
count of the reference store (the presentation slide's cache map) is at
most `maxCacheNumber` unless `maxCacheNumber >= numberOfPages`; this holds
in every state reachable by any sequence of scheduler steps and render
completions from a state with a positive byte budget and accurate byte
accounting (as `ControlScreen::updateCache` establishes when
`maxCacheSize > 0`; for a non-positive `maxCacheSize` the code tracks the
-8GiB unbounded sentinel instead of the real total, which is the claim's
"unless `maxCacheSize` is the unbounded sentinel" proviso). -/
theorem claim_C1_budget_invariant_after_eviction
    (s0 t : ControlScreen) (ts : List CacheTrans) (fuel : Nat)
    (_hpos : 0 < s0.maxCacheSize)
    (hacc : s0.accurate)
    (hdone : ControlScreen.evictLoop fuel (runTrans s0 ts) = .done t) :
    t.totalBytes ≤ t.maxCacheSize ∧
      (t.maxCacheNumber ≥ t.numberOfPages ∨
        t.presentationCache.length ≤ t.maxCacheNumber) := by
  have hs : (runTrans s0 ts).accurate := runTrans_accurate ts s0 hacc
  have hb := evictLoop_done_budgetSat fuel (runTrans s0 ts) t hdone
  have ht : t.accurate := evictLoop_done_accurate fuel (runTrans s0 ts) t hs hdone
  unfold ControlScreen.budgetSat at hb
  unfold ControlScreen.accurate at ht
  refine ⟨?_, hb.2⟩
  omega

/-- Concrete scheduler state used to witness C1. -/
def c1State : ControlScreen :=
  { numberOfPages := 3, currentPageNumber := 1, first_cached := 1,
    last_cached := 1, first_delete := 0, last_delete := 2, cacheSize := 5,
    maxCacheSize := 10, maxCacheNumber := 3,
    presentationCache := ⟨[(1, 3)]⟩, notesCache := ⟨[(1, 1)]⟩,
    previewCache := ⟨[(1, 1)]⟩, previewCacheX := none, drawSlideCache := none,
    timerRunning := true, cacheThreadsRunning := 0 }

/-- Witness for C1 at a concrete state. -/
theorem claim_C1_witness :
    0 < c1State.maxCacheSize ∧ c1State.accurate ∧
      ControlScreen.evictLoop 1 (runTrans c1State []) = .done c1State ∧
      (c1State.totalBytes ≤ c1State.maxCacheSize ∧
        (c1State.maxCacheNumber ≥ c1State.numberOfPages ∨
          c1State.presentationCache.length ≤ c1State.maxCacheNumber)) :=
  ⟨by decide, by decide, by decide,
    claim_C1_budget_invariant_after_eviction c1State c1State [] 1
      (by decide) (by decide) (by decide)⟩

theorem filter_bne_then_beq (l : List (Int × Int)) (p q : Int) (h : q ≠ p) :
    ((l.filter fun e => e.1 != p).filter fun e => e.1 == q)
      = l.filter fun e => e.1 == q := by
  induction l with
  | nil => simp
  | cons e t ih =>
    by_cases h1 : e.1 = p
    · have h2 : (e.1 == q) = false := by
        have hne : e.1 ≠ q := by omega
        simpa using hne
      have hb : (e.1 != p) = false := by simp [bne, h1]
      simp [List.filter_cons, hb, h2, ih]
    · have hb : (e.1 != p) = true := by simp [bne, h1]
      by_cases h2 : e.1 = q
      · have h2' : (e.1 == q) = true := by simpa using h2
        simp [List.filter_cons, hb, h2', ih]
      · have h2' : (e.1 == q) = false := by simpa using h2
        simp [List.filter_cons, hb, h2', ih]

theorem CacheMap.clearPage_entriesAt_ne (m : CacheMap) (p q : Int)
    (h : q ≠ p) : ((m.clearPage p).2).entriesAt q = m.entriesAt q := by
  unfold CacheMap.clearPage CacheMap.entriesAt
  exact filter_bne_then_beq m.entries p q h

/-- Two scheduler states hold exactly the same cached entries for page `q`
in each of the five stores. -/
def storesAgreeAt (s t : ControlScreen) (q : Int) : Prop :=
  s.presentationCache.entriesAt q = t.presentationCache.entriesAt q ∧
    s.notesCache.entriesAt q = t.notesCache.entriesAt q ∧
    s.previewCache.entriesAt q = t.previewCache.entriesAt q ∧
    optEntriesAt s.previewCacheX q = optEntriesAt t.previewCacheX q ∧
    optEntriesAt s.drawSlideCache q = optEntriesAt t.drawSlideCache q

instance (s t : ControlScreen) (q : Int) : Decidable (storesAgreeAt s t q) := by
  unfold storesAgreeAt; infer_instance

theorem storesAgreeAt_refl (s : ControlScreen) (q : Int) : storesAgreeAt s s q :=
  ⟨rfl, rfl, rfl, rfl, rfl⟩

theorem storesAgreeAt_trans {s t u : ControlScreen} {q : Int}
    (h1 : storesAgreeAt s t q) (h2 : storesAgreeAt t u q) :
    storesAgreeAt s u q :=
  ⟨h1.1.trans h2.1, h1.2.1.trans h2.2.1, h1.2.2.1.trans h2.2.2.1,
    h1.2.2.2.1.trans h2.2.2.2.1, h1.2.2.2.2.trans h2.2.2.2.2⟩

theorem evictFromDraw_agree (s : ControlScreen) (page q : Int)
    (h : q ≠ page) : storesAgreeAt s (s.evictFromDraw page) q := by
  unfold ControlScreen.evictFromDraw
  match hd : s.drawSlideCache with
  | none => exact storesAgreeAt_refl s q
  | some m =>
    refine ⟨rfl, rfl, rfl, rfl, ?_⟩
    rw [hd]
    simp only [optEntriesAt]
    exact (CacheMap.clearPage_entriesAt_ne m page q h).symm

theorem evictFromNotes_agree (s : ControlScreen) (page q : Int)
    (h : q ≠ page) : storesAgreeAt s (s.evictFromNotes page) q := by
  unfold ControlScreen.evictFromNotes
  exact ⟨rfl, (CacheMap.clearPage_entriesAt_ne _ page q h).symm, rfl, rfl, rfl⟩

theorem evictFromPreviewX_agree (s : ControlScreen) (page q : Int)
    (h : q ≠ page) : storesAgreeAt s (s.evictFromPreviewX page) q := by
  unfold ControlScreen.evictFromPreviewX
  match hd : s.previewCacheX with
  | none => exact storesAgreeAt_refl s q
  | some m =>
    refine ⟨rfl, rfl, rfl, ?_, rfl⟩
    rw [hd]
    simp only [optEntriesAt]
    exact (CacheMap.clearPage_entriesAt_ne m page q h).symm

theorem evictFromPreview_agree (s : ControlScreen) (page q : Int)
    (h : q ≠ page) : storesAgreeAt s (s.evictFromPreview page) q := by
  unfold ControlScreen.evictFromPreview
  exact ⟨rfl, rfl, (CacheMap.clearPage_entriesAt_ne _ page q h).symm, rfl, rfl⟩

theorem evictFromPres_agree (s : ControlScreen) (page q : Int)
    (h : q ≠ page) : storesAgreeAt s (s.evictFromPres page) q := by
  unfold ControlScreen.evictFromPres
  exact ⟨(CacheMap.clearPage_entriesAt_ne _ page q h).symm, rfl, rfl, rfl, rfl⟩

theorem freeCachePage_agree (s : ControlScreen) (page q : Int)
    (h : q ≠ page) : storesAgreeAt s ((s.freeCachePage page).2) q := by
  unfold ControlScreen.freeCachePage
  dsimp only
  have a1 := evictFromDraw_agree s page q h
  have a2 := storesAgreeAt_trans a1 (evictFromNotes_agree _ page q h)
  have a3 := storesAgreeAt_trans a2 (evictFromPreviewX_agree _ page q h)
  have a4 := storesAgreeAt_trans a3 (evictFromPreview_agree _ page q h)
  have a5 := storesAgreeAt_trans a4 (evictFromPres_agree _ page q h)
  split
  · exact a1
  · split
    · exact a2
    · split
      · exact a4
      · exact a5

/-- C2: in every iteration of the eviction loop, the page handed to
`freeCachePage` (the victim) is the tail boundary `last_delete` exactly when
`last_delete > 4*currentPageNumber - 3*first_delete` and the head boundary
`first_delete` otherwise; moreover the iteration leaves the cached entries
of every other page untouched in all five stores. -/
theorem claim_C2_eviction_victim_choice (s : ControlScreen) (q : Int)
    (hq : q ≠ s.evictVictim) :
    (s.evictIter).1 = s.evictVictim ∧
      storesAgreeAt s ((s.evictIter).2.state) q := by
  constructor
  · unfold ControlScreen.evictIter ControlScreen.evictVictim
    split
    · dsimp only
      split
      · rfl
      · rfl
    · dsimp only
      split
      · rfl
      · rfl
  · unfold ControlScreen.evictIter
    split
    · next hcond =>
      have hq' : q ≠ s.last_delete := by
        unfold ControlScreen.evictVictim at hq
        rwa [if_pos hcond] at hq
      dsimp only
      split
      · exact freeCachePage_agree s s.last_delete q hq'
      · unfold ControlScreen.postIterCheck
        split <;> split <;> exact freeCachePage_agree s s.last_delete q hq'
    · next hcond =>
      have hq' : q ≠ s.first_delete := by
        unfold ControlScreen.evictVictim at hq
        rwa [if_neg hcond] at hq
      dsimp only
      split
      · exact freeCachePage_agree s s.first_delete q hq'
      · unfold ControlScreen.postIterCheck
        split <;> split <;> exact freeCachePage_agree s s.first_delete q hq'

/-- Concrete scheduler state used to witness C2. -/
def c2State : ControlScreen :=
  { numberOfPages := 4, currentPageNumber := 1, first_cached := 1,
    last_cached := 2, first_delete := 0, last_delete := 3, cacheSize := 9,
    maxCacheSize := 4, maxCacheNumber := 4,
    presentationCache := ⟨[(1, 3), (2, 3), (3, 3)]⟩, notesCache := ⟨[]⟩,
    previewCache := ⟨[]⟩, previewCacheX := none, drawSlideCache := none,
    timerRunning := true, cacheThreadsRunning := 0 }

/-- Witness for C2 at a concrete state and non-victim page. -/
theorem claim_C2_witness :
    (1 : Int) ≠ c2State.evictVictim ∧
      ((c2State.evictIter).1 = c2State.evictVictim ∧
        storesAgreeAt c2State ((c2State.evictIter).2.state) 1) :=
  ⟨by decide, claim_C2_eviction_victim_choice c2State 1 (by decide)⟩

theorem freeCachePage_window (s : ControlScreen) (page : Int) :
    ((s.freeCachePage page).2).first_cached = s.first_cached ∧
      ((s.freeCachePage page).2).last_cached = s.last_cached ∧
      ((s.freeCachePage page).2).first_delete = s.first_delete ∧
      ((s.freeCachePage page).2).last_delete = s.last_delete := by
  unfold ControlScreen.freeCachePage ControlScreen.evictFromDraw
    ControlScreen.evictFromNotes ControlScreen.evictFromPreviewX
    ControlScreen.evictFromPreview ControlScreen.evictFromPres
  dsimp only
  cases s.drawSlideCache <;> cases s.previewCacheX <;>
    (dsimp only; split
     · exact ⟨rfl, rfl, rfl, rfl⟩
     · split
       · exact ⟨rfl, rfl, rfl, rfl⟩
       · split
         · exact ⟨rfl, rfl, rfl, rfl⟩
         · exact ⟨rfl, rfl, rfl, rfl⟩)

theorem evictIter_broke_window (s : ControlScreen) :
    ∀ (p : Int) (t : ControlScreen), s.evictIter = (p, .broke t) →
      t.first_cached = s.first_cached ∧ t.last_cached = s.last_cached ∧
        t.first_delete = s.first_delete ∧ t.last_delete = s.last_delete := by
  unfold ControlScreen.evictIter
  split
  · dsimp only
    split
    · intro p t heq
      cases heq
      exact freeCachePage_window s s.last_delete
    · intro p t heq
      exact absurd (congrArg Prod.snd heq) (postIterCheck_ne_broke _ t)
  · dsimp only
    split
    · intro p t heq
      cases heq
      exact freeCachePage_window s s.first_delete
    · intro p t heq
      exact absurd (congrArg Prod.snd heq) (postIterCheck_ne_broke _ t)

theorem postIterCheck_window (u t : ControlScreen)
    (h : u.postIterCheck = .advanced t ∨ u.postIterCheck = .abortStep t) :
    t.first_cached = u.first_cached ∧ t.last_cached = u.last_cached ∧
      t.first_delete = u.first_delete ∧ t.last_delete = u.last_delete := by
  unfold ControlScreen.postIterCheck at h
  rcases h with h | h <;> split at h <;> cases h <;> exact ⟨rfl, rfl, rfl, rfl⟩

theorem postIterCheck_pair_window (a p : Int) (u t : ControlScreen)
    (h : (a, u.postIterCheck) = (p, .advanced t) ∨
      (a, u.postIterCheck) = (p, .abortStep t)) :
    t.first_cached = u.first_cached ∧ t.last_cached = u.last_cached ∧
      t.first_delete = u.first_delete ∧ t.last_delete = u.last_delete := by
  rcases h with h | h
  · exact postIterCheck_window u t (Or.inl (congrArg Prod.snd h))
  · exact postIterCheck_window u t (Or.inr (congrArg Prod.snd h))

theorem evictIter_nonbreak_advance (s : ControlScreen) :
    ∀ (p : Int) (t : ControlScreen),
      (s.evictIter = (p, .advanced t) ∨ s.evictIter = (p, .abortStep t)) →
      (s.last_delete > 4 * s.currentPageNumber - 3 * s.first_delete →
        t.last_delete = s.last_delete - 1 ∧
          t.last_cached = min s.last_cached (s.last_delete - 1) ∧
          t.first_delete = s.first_delete ∧ t.first_cached = s.first_cached) ∧
      (¬ s.last_delete > 4 * s.currentPageNumber - 3 * s.first_delete →
        t.first_delete = s.first_delete + 1 ∧
          t.first_cached = max s.first_cached (s.first_delete + 1) ∧
          t.last_delete = s.last_delete ∧ t.last_cached = s.last_cached) := by
  unfold ControlScreen.evictIter
  split
  · next hcond =>
    have fw := freeCachePage_window s s.last_delete
    dsimp only
    split
    · intro p t heq
      rcases heq with h | h <;> simp [Prod.mk.injEq] at h
    · intro p t heq
      have w := postIterCheck_pair_window _ p _ t heq
      dsimp only at w
      refine ⟨fun _ => ?_, fun hn => absurd hcond hn⟩
      refine ⟨?_, ?_, ?_, ?_⟩
      · rw [w.2.2.2]; omega
      · rw [w.2.1]
        split <;> omega
      · rw [w.2.2.1]; omega
      · rw [w.1]; omega
  · next hcond =>
    have fw := freeCachePage_window s s.first_delete
    dsimp only
    split
    · intro p t heq
      rcases heq with h | h <;> simp [Prod.mk.injEq] at h
    · intro p t heq
      have w := postIterCheck_pair_window _ p _ t heq
      dsimp only at w
      refine ⟨fun hp => absurd hp hcond, fun _ => ?_⟩
      refine ⟨?_, ?_, ?_, ?_⟩
      · rw [w.2.2.1]; omega
      · rw [w.1]
        split <;> omega
      · rw [w.2.2.2]; omega
      · rw [w.2.1]; omega

/-- C3 (amended): after every eviction of a page that does not satisfy the
budget, the corresponding delete boundary is advanced (`last_delete`
decremented for a tail eviction, `first_delete` incremented for a head
eviction) and the cached-region bounds are clamped
(`last_cached = min(last_cached, last_delete)`,
`first_cached = max(first_cached, first_delete)`).  The eviction that
satisfies the budget and ends the loop, however, breaks out *before* the
boundary update: it leaves both delete boundaries and both cached-region
bounds unchanged. -/
theorem claim_C3_boundary_advance (s : ControlScreen) :
    (∀ t : ControlScreen, (s.evictIter).2 = .broke t →
        t.first_cached = s.first_cached ∧ t.last_cached = s.last_cached ∧
          t.first_delete = s.first_delete ∧ t.last_delete = s.last_delete) ∧
    (∀ t : ControlScreen,
        ((s.evictIter).2 = .advanced t ∨ (s.evictIter).2 = .abortStep t) →
        (s.last_delete > 4 * s.currentPageNumber - 3 * s.first_delete →
          t.last_delete = s.last_delete - 1 ∧
            t.last_cached = min s.last_cached (s.last_delete - 1) ∧
            t.first_delete = s.first_delete ∧
            t.first_cached = s.first_cached) ∧
        (¬ s.last_delete > 4 * s.currentPageNumber - 3 * s.first_delete →
          t.first_delete = s.first_delete + 1 ∧
            t.first_cached = max s.first_cached (s.first_delete + 1) ∧
            t.last_delete = s.last_delete ∧
            t.last_cached = s.last_cached)) := by
  constructor
  · intro t heq
    exact evictIter_broke_window s (s.evictIter).1 t (by rw [← heq])
  · intro t heq
    refine evictIter_nonbreak_advance s (s.evictIter).1 t ?_
    rcases heq with h | h
    · exact Or.inl (by rw [← h])
    · exact Or.inr (by rw [← h])

/-- Concrete scheduler state whose first eviction iteration satisfies the
budget: `freeCachePage` returns `true` after clearing only the draw-slide
store, and the loop breaks without advancing any boundary. -/
def c3State : ControlScreen :=
  { numberOfPages := 2, currentPageNumber := 1, first_cached := 1,
    last_cached := 1, first_delete := 0, last_delete := 1, cacheSize := 15,
    maxCacheSize := 10, maxCacheNumber := 2,
    presentationCache := ⟨[(0, 3), (1, 3)]⟩, notesCache := ⟨[(0, 1)]⟩,
    previewCache := ⟨[(0, 2)]⟩, previewCacheX := none,
    drawSlideCache := some ⟨[(0, 6)]⟩,
    timerRunning := true, cacheThreadsRunning := 0 }

/-- Counterexample to C3 as stated: in `c3State` the eviction loop runs
(the loop condition holds), the iteration evicts page 0 from the draw-slide
store and ends the loop via `break`, yet neither delete boundary is
advanced and no bound is clamped. -/
theorem claim_C3_counterexample :
    c3State.evictCond ∧
      (c3State.evictIter).2 = .broke ((c3State.evictIter).2.state) ∧
      optEntriesAt c3State.drawSlideCache 0 = [(0, 6)] ∧
      optEntriesAt ((c3State.evictIter).2.state).drawSlideCache 0 = [] ∧
      ¬ (((c3State.evictIter).2.state).first_delete =
            c3State.first_delete + 1 ∨
          ((c3State.evictIter).2.state).last_delete =
            c3State.last_delete - 1) := by
  decide

/-- Concrete state whose first eviction iteration evicts the tail page and
does not satisfy the budget, so the boundary advances. -/
def c3AdvState : ControlScreen :=
  { numberOfPages := 10, currentPageNumber := 0, first_cached := 0,
    last_cached := 8, first_delete := 0, last_delete := 9, cacheSize := 5,
    maxCacheSize := 1, maxCacheNumber := 10,
    presentationCache := ⟨[(0, 5)]⟩, notesCache := ⟨[]⟩,
    previewCache := ⟨[]⟩, previewCacheX := none, drawSlideCache := none,
    timerRunning := true, cacheThreadsRunning := 0 }

/-- Witness for the amended C3 at a concrete state. -/
theorem claim_C3_witness :
    ((c3AdvState.evictIter).2.state).last_delete = c3AdvState.last_delete - 1 ∧
      ((c3AdvState.evictIter).2.state).last_cached
        = min c3AdvState.last_cached (c3AdvState.last_delete - 1) := by
  have w := (claim_C3_boundary_advance c3AdvState).2
    ((c3AdvState.evictIter).2.state) (Or.inl (by decide))
  exact ⟨(w.1 (by decide)).1, (w.1 (by decide)).2.1⟩

/-- C4: a scheduler step invoked in a state whose window is inconsistent
(`last_cached > last_delete`, or `first_cached < first_delete`, or
`first_cached > currentPageNumber`, or
`last_cached < currentPageNumber - 1`) performs no eviction and dispatches
no render job: it only stops the scheduler timer and returns, leaving all
stores and the window bookkeeping unchanged. -/
theorem claim_C4_inconsistent_window_stops (s : ControlScreen) (fuel : Nat)
    (h : s.windowInconsistent) :
    s.updateCacheStep fuel = (.stopped, s.stopTimer) := by
  unfold ControlScreen.updateCacheStep
  split
  · rfl
  · rfl

/-- Concrete state with an inconsistent window (`last_cached > last_delete`). -/
def c4State : ControlScreen :=
  { numberOfPages := 6, currentPageNumber := 4, first_cached := 3,
    last_cached := 5, first_delete := 1, last_delete := 3, cacheSize := 7,
    maxCacheSize := 100, maxCacheNumber := 6,
    presentationCache := ⟨[(3, 4), (4, 3)]⟩, notesCache := ⟨[]⟩,
    previewCache := ⟨[]⟩, previewCacheX := none, drawSlideCache := none,
    timerRunning := true, cacheThreadsRunning := 0 }

/-- Witness for C4 at a concrete state. -/
theorem claim_C4_witness :
    c4State.windowInconsistent ∧
      c4State.updateCacheStep 5 = (.stopped, c4State.stopTimer) :=
  ⟨by decide, claim_C4_inconsistent_window_stops c4State 5 (by decide)⟩

/-- Concrete state entered with `currentPageNumber` outside
`[first_cached, last_cached]` while the byte budget is exactly 0: the
disabled-cache branch of `updateCache` clears the stores and returns
without resetting the window. -/
def c5State : ControlScreen :=
  { numberOfPages := 8, currentPageNumber := 5, first_cached := 7,
    last_cached := 7, first_delete := 3, last_delete := 7, cacheSize := 4,
    maxCacheSize := 0, maxCacheNumber := 8,
    presentationCache := ⟨[(7, 4)]⟩, notesCache := ⟨[]⟩, previewCache := ⟨[]⟩,
    previewCacheX := none, drawSlideCache := none,
    timerRunning := false, cacheThreadsRunning := 0 }

/-- Counterexample to C5 as stated: `updateCache` is entered with
`currentPageNumber` outside `[first_cached, last_cached]`, yet the window is
not reset (the zero-budget branch returns first). -/
theorem claim_C5_counterexample :
    (c5State.first_cached > c5State.currentPageNumber ∨
        c5State.last_cached < c5State.currentPageNumber) ∧
      ¬ ((c5State.updateCache).first_cached = c5State.currentPageNumber ∧
          (c5State.updateCache).last_cached = c5State.currentPageNumber - 1 ∧
          (c5State.updateCache).first_delete = 0 ∧
          (c5State.updateCache).last_delete = c5State.numberOfPages - 1) := by
  decide

/-- C5 (amended): whenever `updateCache` is entered with
`currentPageNumber` outside `[first_cached, last_cached]`, and neither
budget is exactly 0 (which would take the early clear-and-return branch)
and not all stores are full (which would return early), the cache window is
reset to the empty region `first_cached = currentPageNumber`,
`last_cached = currentPageNumber - 1` with delete boundaries
`first_delete = 0` and `last_delete = numberOfPages - 1`. -/
theorem claim_C5_window_reset (s : ControlScreen)
    (hsize : s.maxCacheSize ≠ 0) (hnum : s.maxCacheNumber ≠ 0)
    (hfull : ¬ s.allCached)
    (hout : s.first_cached > s.currentPageNumber ∨
      s.last_cached < s.currentPageNumber) :
    (s.updateCache).first_cached = s.currentPageNumber ∧
      (s.updateCache).last_cached = s.currentPageNumber - 1 ∧
      (s.updateCache).first_delete = 0 ∧
      (s.updateCache).last_delete = s.numberOfPages - 1 := by
  unfold ControlScreen.updateCache
  rw [if_neg (show ¬ (s.maxCacheSize = 0 ∨ s.maxCacheNumber = 0) by
    push_neg; exact ⟨hsize, hnum⟩)]
  dsimp only
  rw [if_neg (show ¬ (ControlScreen.stopTimer s).allCached from hfull)]
  split
  · split
    · split
      · exact ⟨rfl, rfl, rfl, rfl⟩
      · exact ⟨rfl, rfl, rfl, rfl⟩
    · next hn => exact absurd hout hn
  · split
    · split
      · exact ⟨rfl, rfl, rfl, rfl⟩
      · exact ⟨rfl, rfl, rfl, rfl⟩
    · next hn => exact absurd hout hn

/-- Concrete state for the C5 witness: positive budgets, stores not full,
current page outside the cached region. -/
def c5wState : ControlScreen :=
  { numberOfPages := 4, currentPageNumber := 2, first_cached := 0,
    last_cached := 1, first_delete := 0, last_delete := 3, cacheSize := 4,
    maxCacheSize := 50, maxCacheNumber := 3,
    presentationCache := ⟨[(0, 2), (1, 2)]⟩, notesCache := ⟨[]⟩,
    previewCache := ⟨[]⟩, previewCacheX := none, drawSlideCache := none,
    timerRunning := false, cacheThreadsRunning := 0 }

/-- Witness for the amended C5 at a concrete state. -/
theorem claim_C5_witness :
    (c5wState.updateCache).first_cached = c5wState.currentPageNumber ∧
      (c5wState.updateCache).last_cached = c5wState.currentPageNumber - 1 ∧
      (c5wState.updateCache).first_delete = 0 ∧
      (c5wState.updateCache).last_delete = c5wState.numberOfPages - 1 :=
  claim_C5_window_reset c5wState (by decide) (by decide) (by decide) (by decide)

/-- C6: when forward space remains (`last_cached + 1 < numberOfPages`), the
scheduling phase renders page `last_cached + 1` (incrementing
`last_cached`) unless all three thrash-avoidance conditions hold
simultaneously — (i) `2*maxCacheSize < 3*cacheSize`, (ii)
`3*(last_cached - currentPageNumber)*cacheSize >
2*presentationCache.length*maxCacheSize`, (iii)
`(maxCacheSize - cacheSize)*presentationCache.length < 2*cacheSize` — in
which case it stops the scheduler instead.  (The source's extra disjunct
`last_cached == numberOfPages` in (ii) is unsatisfiable when forward space
remains.) -/
theorem claim_C6_forward_thrash_guard (s : ControlScreen)
    (h : s.last_cached + 1 < s.numberOfPages) :
    ((2 * s.maxCacheSize < 3 * s.cacheSize ∧
        3 * (s.last_cached - s.currentPageNumber) * s.cacheSize >
          2 * s.presentationCache.length * s.maxCacheSize ∧
        (s.maxCacheSize - s.cacheSize) * s.presentationCache.length <
          2 * s.cacheSize) →
      s.schedPhase = (.stopped, s.stopTimer)) ∧
    (¬ (2 * s.maxCacheSize < 3 * s.cacheSize ∧
        3 * (s.last_cached - s.currentPageNumber) * s.cacheSize >
          2 * s.presentationCache.length * s.maxCacheSize ∧
        (s.maxCacheSize - s.cacheSize) * s.presentationCache.length <
          2 * s.cacheSize) →
      (s.schedPhase).1 = .dispatched (s.last_cached + 1) ∧
        (s.schedPhase).2.last_cached = s.last_cached + 1) := by
  unfold ControlScreen.schedPhase
  rw [if_neg (show ¬ s.last_cached + 1 = s.numberOfPages by omega)]
  constructor
  · intro hg
    rw [if_pos ⟨hg.1, Or.inr hg.2.1, hg.2.2⟩]
  · intro hg
    rw [if_neg (show ¬ (2 * s.maxCacheSize < 3 * s.cacheSize ∧
        (s.last_cached = s.numberOfPages ∨
          3 * (s.last_cached - s.currentPageNumber) * s.cacheSize >
            2 * s.presentationCache.length * s.maxCacheSize) ∧
        (s.maxCacheSize - s.cacheSize) * s.presentationCache.length <
          2 * s.cacheSize) by
      intro hc
      rcases hc with ⟨a, b, c⟩
      rcases b with b | b
      · omega
      · exact hg ⟨a, b, c⟩)]
    exact ⟨rfl, rfl⟩

/-- Concrete state for the C6 witness: forward space remains and the
thrash-avoidance guard does not fire. -/
def c6State : ControlScreen :=
  { numberOfPages := 5, currentPageNumber := 1, first_cached := 1,
    last_cached := 2, first_delete := 0, last_delete := 4, cacheSize := 10,
    maxCacheSize := 100, maxCacheNumber := 5,
    presentationCache := ⟨[(1, 5), (2, 5)]⟩, notesCache := ⟨[]⟩,
    previewCache := ⟨[]⟩, previewCacheX := none, drawSlideCache := none,
    timerRunning := true, cacheThreadsRunning := 0 }

/-- Witness for C6 at a concrete state. -/
theorem claim_C6_witness :
    (c6State.schedPhase).1 = .dispatched (c6State.last_cached + 1) ∧
      (c6State.schedPhase).2.last_cached = c6State.last_cached + 1 :=
  (claim_C6_forward_thrash_guard c6State (by decide)).2 (by decide)

/-- Concrete state refuting C7's "or the page budget is unlimited" clause:
the tail of the document is cached, `first_cached > first_delete`, used
bytes are below 2/3 of the byte budget, and the page budget is unlimited in
the sense `maxCacheNumber >= numberOfPages` (here `N + 1`), yet the step
stops because the source tests `maxCacheNumber == numberOfPages` exactly
and the 2/3 page test fails. -/
def c7State : ControlScreen :=
  { numberOfPages := 3, currentPageNumber := 2, first_cached := 1,
    last_cached := 2, first_delete := 0, last_delete := 2, cacheSize := 10,
    maxCacheSize := 100, maxCacheNumber := 4,
    presentationCache := ⟨[(0, 4), (1, 3), (2, 3)]⟩, notesCache := ⟨[]⟩,
    previewCache := ⟨[]⟩, previewCacheX := none, drawSlideCache := none,
    timerRunning := true, cacheThreadsRunning := 0 }

/-- Counterexample to C7 as stated (reading "the page budget is unlimited"
as `maxCacheNumber >= numberOfPages`, the convention the budget invariant
uses): all slack conditions of the claim hold at `c7State`, yet the step
stops instead of rendering `first_cached - 1`. -/
theorem claim_C7_counterexample :
    c7State.last_cached + 1 = c7State.numberOfPages ∧
      (c7State.first_cached > c7State.first_delete ∧
        2 * c7State.maxCacheSize > 3 * c7State.cacheSize ∧
        (c7State.maxCacheNumber ≥ c7State.numberOfPages ∨
          2 * c7State.maxCacheNumber > 3 * c7State.presentationCache.length)) ∧
      ¬ ((c7State.schedPhase).1 = .dispatched (c7State.first_cached - 1)) ∧
      (c7State.schedPhase).1 = .stopped := by
  decide

/-- C7 (amended): when the tail of the document is already cached
(`last_cached + 1 = numberOfPages`), the step renders page
`first_cached - 1` (decrementing `first_cached`) if and only if
simultaneously `first_cached > first_delete`, the used bytes are below 2/3
of the byte budget (`2*maxCacheSize > 3*cacheSize`), and either the page
budget equals exactly the total page count (`maxCacheNumber =
numberOfPages`, the canonical unlimited value set by a negative budget) or
the used page count is below 2/3 of the page budget
(`2*maxCacheNumber > 3*presentationCache.length`); otherwise the step
stops the scheduler. -/
theorem claim_C7_backfill_slack (s : ControlScreen)
    (h : s.last_cached + 1 = s.numberOfPages) :
    (((s.schedPhase).1 = .dispatched (s.first_cached - 1)) ↔
      (s.first_cached > s.first_delete ∧
        2 * s.maxCacheSize > 3 * s.cacheSize ∧
        (s.maxCacheNumber = s.numberOfPages ∨
          2 * s.maxCacheNumber > 3 * s.presentationCache.length))) ∧
    ((s.first_cached > s.first_delete ∧
        2 * s.maxCacheSize > 3 * s.cacheSize ∧
        (s.maxCacheNumber = s.numberOfPages ∨
          2 * s.maxCacheNumber > 3 * s.presentationCache.length)) →
      (s.schedPhase).2.first_cached = s.first_cached - 1) ∧
    (¬ (s.first_cached > s.first_delete ∧
        2 * s.maxCacheSize > 3 * s.cacheSize ∧
        (s.maxCacheNumber = s.numberOfPages ∨
          2 * s.maxCacheNumber > 3 * s.presentationCache.length)) →
      s.schedPhase = (.stopped, s.stopTimer)) := by
  unfold ControlScreen.schedPhase
  rw [if_pos h]
  by_cases hc : s.first_cached > s.first_delete ∧
      2 * s.maxCacheSize > 3 * s.cacheSize ∧
      (s.maxCacheNumber = s.numberOfPages ∨
        2 * s.maxCacheNumber > 3 * s.presentationCache.length)
  · rw [if_pos hc]
    exact ⟨⟨fun _ => hc, fun _ => rfl⟩, fun _ => rfl, fun hn => absurd hc hn⟩
  · rw [if_neg hc]
    refine ⟨⟨fun hx => ?_, fun hx => absurd hx hc⟩,
      fun hx => absurd hx hc, fun _ => rfl⟩
    cases hx

/-- Concrete state for the C7 witness: tail cached, slack available, page
budget exactly the page count. -/
def c7wState : ControlScreen :=
  { numberOfPages := 3, currentPageNumber := 2, first_cached := 1,
    last_cached := 2, first_delete := 0, last_delete := 2, cacheSize := 10,
    maxCacheSize := 100, maxCacheNumber := 3,
    presentationCache := ⟨[(1, 5), (2, 5)]⟩, notesCache := ⟨[]⟩,
    previewCache := ⟨[]⟩, previewCacheX := none, drawSlideCache := none,
    timerRunning := true, cacheThreadsRunning := 0 }

/-- Witness for the amended C7 at a concrete state. -/
theorem claim_C7_witness :
    (c7wState.schedPhase).1 = .dispatched (c7wState.first_cached - 1) ∧
      (c7wState.schedPhase).2.first_cached = c7wState.first_cached - 1 :=
  have hth := claim_C7_backfill_slack c7wState (by decide)
  ⟨hth.1.mpr (by decide), hth.2.1 (by decide)⟩

theorem optLength_map_clearCache (o : Option CacheMap) :
    optLength (o.map CacheMap.clearCache) = 0 := by
  cases o <;> rfl

/-- Concrete state with a cached page, used to refute C8's "immediate
flush". -/
def c8State : ControlScreen :=
  { numberOfPages := 5, currentPageNumber := 0, first_cached := 0,
    last_cached := 0, first_delete := 0, last_delete := 4, cacheSize := 6,
    maxCacheSize := 100, maxCacheNumber := 5,
    presentationCache := ⟨[(0, 6)]⟩, notesCache := ⟨[]⟩, previewCache := ⟨[]⟩,
    previewCacheX := none, drawSlideCache := none,
    timerRunning := true, cacheThreadsRunning := 0 }

/-- Counterexample to C8 as stated: neither `setCacheNumber(0)` nor
`setCacheSize(0)` flushes the attached stores — the presentation store
still holds its page afterwards. -/
theorem claim_C8_counterexample :
    ¬ ((c8State.setCacheNumber 0).presentationCache.length = 0) ∧
      ¬ ((c8State.setCacheSize 0).presentationCache.length = 0) ∧
      (c8State.setCacheNumber 0).presentationCache.length = 1 ∧
      (c8State.setCacheSize 0).presentationCache.length = 1 := by
  decide

/-- C8 (amended): a negative page-count budget is treated as equal to the
total number of pages; `setCacheNumber(0)` interrupts the cache processes
(stopping the timer) and records the zero budget but leaves every store
unchanged; `setCacheSize(0)` records the zero budget and leaves every
store unchanged (it interrupts only when the tracked `cacheSize` counter —
not the new budget — is 0); the full flush of all attached stores happens
at the next `updateCache` call, which with a zero byte or page budget
clears every store, after which every store's page count is 0. -/
theorem claim_C8_zero_budget_flush (s : ControlScreen) (n : Int) :
    (n < 0 → (s.setCacheNumber n).maxCacheNumber = s.numberOfPages) ∧
    ((s.setCacheNumber 0).maxCacheNumber = 0 ∧
      (s.setCacheNumber 0).presentationCache = s.presentationCache ∧
      (s.setCacheNumber 0).notesCache = s.notesCache ∧
      (s.setCacheNumber 0).previewCache = s.previewCache ∧
      (s.setCacheNumber 0).previewCacheX = s.previewCacheX ∧
      (s.setCacheNumber 0).drawSlideCache = s.drawSlideCache ∧
      (s.setCacheNumber 0).timerRunning = false) ∧
    ((s.setCacheSize 0).maxCacheSize = 0 ∧
      (s.setCacheSize 0).presentationCache = s.presentationCache ∧
      (s.setCacheSize 0).notesCache = s.notesCache ∧
      (s.setCacheSize 0).previewCache = s.previewCache ∧
      (s.setCacheSize 0).previewCacheX = s.previewCacheX ∧
      (s.setCacheSize 0).drawSlideCache = s.drawSlideCache) ∧
    (s.maxCacheSize = 0 ∨ s.maxCacheNumber = 0 →
      (s.updateCache).presentationCache.length = 0 ∧
        (s.updateCache).notesCache.length = 0 ∧
        (s.updateCache).previewCache.length = 0 ∧
        optLength (s.updateCache).previewCacheX = 0 ∧
        optLength (s.updateCache).drawSlideCache = 0) := by
  refine ⟨?_, ?_, ?_, ?_⟩
  · intro hn
    unfold ControlScreen.setCacheNumber
    rw [if_pos hn]
  · unfold ControlScreen.setCacheNumber ControlScreen.interruptCacheProcesses
    rw [if_neg (show ¬ (0 : Int) < 0 by omega), if_pos rfl]
    exact ⟨rfl, rfl, rfl, rfl, rfl, rfl, rfl⟩
  · unfold ControlScreen.setCacheSize ControlScreen.interruptCacheProcesses
    split <;> exact ⟨rfl, rfl, rfl, rfl, rfl, rfl⟩
  · intro hz
    unfold ControlScreen.updateCache
    rw [if_pos hz]
    unfold ControlScreen.clearAllCaches
    exact ⟨rfl, rfl, rfl, optLength_map_clearCache _, optLength_map_clearCache _⟩

/-- Concrete state with a zero page budget for the C8 witness. -/
def c8wState : ControlScreen :=
  { numberOfPages := 5, currentPageNumber := 0, first_cached := 0,
    last_cached := 0, first_delete := 0, last_delete := 4, cacheSize := 6,
    maxCacheSize := 100, maxCacheNumber := 0,
    presentationCache := ⟨[(0, 6)]⟩, notesCache := ⟨[]⟩, previewCache := ⟨[]⟩,
    previewCacheX := none, drawSlideCache := some ⟨[(0, 2)]⟩,
    timerRunning := true, cacheThreadsRunning := 0 }

/-- Witness for the amended C8 at a concrete state. -/
theorem claim_C8_witness :
    (c8wState.setCacheNumber (-1)).maxCacheNumber = c8wState.numberOfPages ∧
      (c8wState.updateCache).presentationCache.length = 0 ∧
      optLength (c8wState.updateCache).drawSlideCache = 0 :=
  have hth := claim_C8_zero_budget_flush c8wState (-1)
  ⟨hth.1 (by decide), (hth.2.2.2 (by decide)).1,
    (hth.2.2.2 (by decide)).2.2.2.2⟩

/-- Counterexample to C9 as stated: a render job for page 2 is in flight
(the store did not contain page 2 at the first check), the store is cleared
while rendering (the re-check sees an empty store), and the late result is
nevertheless stored: the insert returns the blob size and the store holds
an entry for page 2 afterwards. -/
theorem claim_C9_counterexample :
    (⟨[(0, 50)]⟩ : CacheMap).contains 2 = false ∧
      (⟨[]⟩ : CacheMap).contains 2 = false ∧
      (PageLabel.updateCache ⟨[(0, 50)]⟩ ⟨[]⟩ 2 100).1 = 100 ∧
      ((PageLabel.updateCache ⟨[(0, 50)]⟩ ⟨[]⟩ 2 100).2).contains 2 = true ∧
      ¬ ((PageLabel.updateCache ⟨[(0, 50)]⟩ ⟨[]⟩ 2 100).2).entriesAt 2 = [] := by
  decide

/-- C9 (amended): the presence re-check immediately before the insert
discards a late render result exactly when the store holds an entry for the
page at that moment (an entry written concurrently): then the insert
returns 0 and the store is unchanged.  After a clear, however, the store
holds no entry for the page, so a late result for a job dispatched before
the clear passes the re-check and is stored — stale-insert immunity after
`clearCache` does not hold. -/
theorem claim_C9_stale_insert (c1 c2 : CacheMap) (index bytes : Int) :
    (c2.contains index = true →
      PageLabel.updateCache c1 c2 index bytes = (0, c2)) ∧
    (c1.contains index = false → c2.contains index = false →
      PageLabel.updateCache c1 c2 index bytes
        = (bytes, ⟨(index, bytes) :: c2.entries⟩)) := by
  constructor
  · intro h2
    unfold PageLabel.updateCache
    by_cases h1 : c1.contains index = true
    · rw [if_pos h1]
    · rw [if_neg h1, if_pos h2]
  · intro h1 h2
    unfold PageLabel.updateCache
    rw [if_neg (by simp [h1]), if_neg (by simp [h2])]

/-- Witness for the amended C9 at concrete stores. -/
theorem claim_C9_witness :
    PageLabel.updateCache ⟨[(2, 7)]⟩ ⟨[(2, 7)]⟩ 2 100 = (0, ⟨[(2, 7)]⟩) ∧
      PageLabel.updateCache ⟨[]⟩ ⟨[]⟩ 2 100 = (100, ⟨[(2, 100)]⟩) :=
  ⟨(claim_C9_stale_insert ⟨[(2, 7)]⟩ ⟨[(2, 7)]⟩ 2 100).1 (by decide),
    (claim_C9_stale_insert ⟨[]⟩ ⟨[]⟩ 2 100).2 (by decide) (by decide)⟩

/-- C10: for every requested page number that is out of range (negative or
at least `numberOfPages`), both page-change entry points clamp to the last
page: `ControlScreen::renderPage` sets `currentPageNumber` to
`numberOfPages - 1`, and `PresentationScreen::renderPage` displays the last
page of the document.  Both are total functions of the request: neither
fails nor ignores the request. -/
theorem claim_C10_out_of_range_clamps (p n : Int) (h : p < 0 ∨ p ≥ n) :
    ControlScreen.renderPageCurrent p n = n - 1 ∧
      PresentationScreen.renderPageTarget p n = n - 1 := by
  unfold ControlScreen.renderPageCurrent PresentationScreen.renderPageTarget
  rw [if_pos h]
  exact ⟨rfl, rfl⟩

/-- Witness for C10 at a concrete out-of-range request. -/
theorem claim_C10_witness :
    ControlScreen.renderPageCurrent 7 5 = 4 ∧
      PresentationScreen.renderPageTarget 7 5 = 4 :=
  claim_C10_out_of_range_clamps 7 5 (by decide)
